import Mathlib

/-!
Verification development for the box-appauth token lifecycle module
(`module.exports = function(payload, claims, publicKey, privateKey, auth, opts)`).

The module owns a single mutable `Token` closure with fields `accessToken`,
`issuedAt`, `expiresAt` (all `undefined` before the first successful
exchange) and a module-level boolean `isRefreshing` guard plus a recurring
60s `refreshTimer`.  We embed that state as `TokenState`, the environment of
one `set()` call (uuid draws, per-attempt signature-verification outcome,
network responses, `Date.now()` readings) as `ExchangeCtx`, and the
backoff-driven retry loop of `set()` as the fuel-indexed `setLoop`.
Promise settlement is the inductive `PromiseOutcome`.
-/

namespace BoxAppauth

/-- A JavaScript `Error` as relevant here: its message string and an
optional attached cause (the source only ever constructs `new Error(msg)`,
which has no cause). -/
structure JsError where
  message : String
  cause : Option String
deriving DecidableEq, Repr

/-- Settlement of a JS Promise: `resolve(v)` or `reject(e)`. -/
inductive PromiseOutcome (α : Type) where
  | resolved (v : α)
  | rejected (e : JsError)
deriving DecidableEq, Repr

def PromiseOutcome.isRejected {α : Type} : PromiseOutcome α → Bool
  | .rejected _ => true
  | .resolved _ => false

/-- The cause attached to a rejection, if any. -/
def PromiseOutcome.causeOf {α : Type} : PromiseOutcome α → Option String
  | .rejected e => e.cause
  | .resolved _ => none

/-- The mutable state of one `Token` instance together with the module-level
`isRefreshing` flag.  `accessToken`, `issuedAt`, `expiresAt` are the closure
variables declared at the top of `var Token = function() {...}`; they are
`undefined` (here `none`) until the first successful `set()`.  Note the code
declares no `revoked` flag of any kind. -/
structure TokenState where
  accessToken : Option String
  issuedAt : Option Nat
  expiresAt : Option Nat
  isRefreshing : Bool
deriving DecidableEq, Repr

/-- State at instance creation: all closure variables undefined, guard down. -/
def initialState : TokenState :=
  { accessToken := none, issuedAt := none, expiresAt := none, isRefreshing := false }

/-- The parsed JSON body of a token-exchange response, as the code reads it:
`tokenObj.access_token` (absent or falsy means exchange-level failure) and
`tokenObj.expires_in` in seconds (only ever read on the success path). -/
structure TokenBody where
  access_token : Option String
  expires_in : Nat
deriving DecidableEq, Repr

/-- One network answer to the exchange POST, as seen by the callback
`function(err, res, body)`: a transport error `err`, a body on which
`JSON.parse` throws, or a parsed JSON body. -/
inductive Response where
  | err (msg : String)
  | invalidJson (body : String)
  | json (b : TokenBody)
deriving DecidableEq, Repr

/-- The per-attempt response handling of `set()` (lines 165-201): transport
error, parse failure and a missing/falsy `access_token` all return
`fibonacciBackoff.backoff()` (here `none`); otherwise the token string and
`expires_in` are extracted.  JS truthiness makes the empty string falsy. -/
def processResponse : Response → Option (String × Nat)
  | .err _ => none
  | .invalidJson _ => none
  | .json b =>
    match b.access_token with
    | none => none
    | some tok => if tok = "" then none else some (tok, b.expires_in)

/-- External world of one `set()` call, indexed by attempt number (the
0-based `number` of the backoff `ready` event): the `uuid.v4()` draw used as
`payload.jti`, the outcome of `jwt.verify(signedJwt, publicKey)` (`some msg`
when it throws), the network `Response`, and `Date.now()` at response
processing. -/
structure ExchangeCtx where
  uuid : Nat → String
  verify : Nat → Option String
  response : Nat → Response
  clock : Nat → Nat

/-- Result of the retry loop: success on a given attempt carrying the token,
`expires_in` and the `Date.now()` stamp; immediate rejection when local JWT
verification throws; or exhaustion of the attempt budget (`fail` event). -/
inductive SetResult where
  | success (attempt : Nat) (tok : String) (expIn : Nat) (now : Nat)
  | signErr (attempt : Nat) (msg : String)
  | exhausted
deriving DecidableEq, Repr

/-- The exchange-with-backoff loop of `set()` (lines 122-209).  `fuel` is the
remaining attempt budget (`failAfter(callRetryMax)` allows exactly
`callRetryMax` `ready` events before `fail` fires), `i` the attempt index,
`reqs` the number of `request.post` calls made so far.  Each attempt draws a
fresh jti and signs; a `jwt.verify` throw rejects the whole promise at once
(no request is posted, no retry); otherwise the request is posted and a
retryable failure (`processResponse = none`) calls `backoff()` for the next
attempt. -/
def setLoop (ctx : ExchangeCtx) : Nat → Nat → Nat → SetResult × Nat
  | 0, _, reqs => (.exhausted, reqs)
  | fuel + 1, i, reqs =>
    match ctx.verify i with
    | some msg => (.signErr i msg, reqs)
    | none =>
      match processResponse (ctx.response i) with
      | some (tok, expIn) => (.success i tok expIn (ctx.clock i), reqs + 1)
      | none => setLoop ctx fuel (i + 1) (reqs + 1)

/-- Run one `set()` exchange cycle with budget `callRetryMax`. -/
def runSet (ctx : ExchangeCtx) (callRetryMax : Nat) : SetResult × Nat :=
  setLoop ctx callRetryMax 0 0

/-- The object `set()` resolves with: the parsed body after the code stamps
`tokenObj.issued_at = now` and `tokenObj.expires_at = now + expires_in*1000`. -/
structure TokenObj where
  access_token : String
  expires_in : Nat
  issued_at : Nat
  expires_at : Nat
deriving DecidableEq, Repr

/-- The rejection of the `fail` handler (line 206): a plain
`new Error('Unable to get token after 10 tries')` — fixed message text
whatever `callRetryMax` is, and no cause attached. -/
def exhaustedError : JsError :=
  { message := "Unable to get token after 10 tries", cause := none }

/-- Effect of one `set()` call on the token state (lines 117-211): on
success the three closure variables are assigned from the stamped
`tokenObj` and the promise resolves with it; on a `jwt.verify` throw the
promise rejects with that error; on exhaustion it rejects with
`exhaustedError`.  In the failure cases no closure variable is assigned. -/
def applySet (st : TokenState) (ctx : ExchangeCtx) (callRetryMax : Nat) :
    TokenState × PromiseOutcome TokenObj :=
  match (runSet ctx callRetryMax).1 with
  | .success _ tok expIn now =>
      ({ accessToken := some tok, issuedAt := some now,
         expiresAt := some (now + expIn * 1000), isRefreshing := st.isRefreshing },
       .resolved { access_token := tok, expires_in := expIn,
                   issued_at := now, expires_at := now + expIn * 1000 })
  | .signErr _ msg => (st, .rejected { message := msg, cause := none })
  | .exhausted => (st, .rejected exhaustedError)

/-- `this.get = function() { return Promise.resolve(accessToken); }` —
unconditionally resolves with the current `accessToken`, which is
`undefined` (`none`) before the first successful `set()`. -/
def Token.get (st : TokenState) : PromiseOutcome (Option String) :=
  .resolved st.accessToken

/-- `var doRefresh = (expiresAt - Date.now()) < (minutesUntilTokenRefresh * 60 * 1000)`.
With `expiresAt` undefined the JS subtraction is `NaN` and the comparison is
false; otherwise it is a plain (possibly negative) number comparison. -/
def doRefreshCheck (st : TokenState) (now : Nat) (thresholdMinutes : Nat) : Bool :=
  match st.expiresAt with
  | none => false
  | some e => decide ((e : Int) - (now : Int) < (thresholdMinutes : Int) * 60 * 1000)

/-- `this.refreshIfExpiring` (lines 86-111): when the guard is down and the
token is near expiry, raise `isRefreshing`, run one `set()` cycle, and lower
the guard again in the `finally` handler whatever the outcome; otherwise
return `Promise.resolve()` immediately.  The second component counts the
`set()` invocations (exchange cycles) the call made. -/
def refreshIfExpiring (st : TokenState) (now : Nat) (thresholdMinutes : Nat)
    (ctx : ExchangeCtx) (callRetryMax : Nat) : TokenState × Nat :=
  if !st.isRefreshing && doRefreshCheck st now thresholdMinutes then
    let st1 := { st with isRefreshing := true }
    let st2 := (applySet st1 ctx callRetryMax).1
    ({ st2 with isRefreshing := false }, 1)
  else
    (st, 0)

/-- The `auth` configuration fields used by `revoke`. -/
structure Auth where
  clientId : String
  clientSecret : String
deriving DecidableEq, Repr

/-- JS string interpolation of a possibly-undefined value via `util.format`. -/
def jsShow : Option String → String
  | none => "undefined"
  | some s => s

/-- The form body `revoke` posts (lines 58-63). -/
def revokeBody (auth : Auth) (st : TokenState) : String :=
  "client_id=" ++ auth.clientId ++ "&client_secret=" ++ auth.clientSecret ++
    "&token=" ++ jsShow st.accessToken

/-- `this.revoke` (lines 50-82): posts the revocation request and, in the
callback, either rejects with the transport error or resolves with the
response body.  It assigns no closure variable: `accessToken`, `issuedAt`,
`expiresAt` and `isRefreshing` are all left exactly as they were, and no
revoked flag exists to be set. -/
def revoke (auth : Auth) (st : TokenState) (transport : PromiseOutcome String) :
    TokenState × PromiseOutcome String :=
  let _requestBody := revokeBody auth st
  match transport with
  | .rejected e => (st, .rejected e)
  | .resolved body => (st, .resolved body)

/-- The JWT payload: the caller-supplied claim set (opaque here) plus the
`jti` field the `ready` handler overwrites on every attempt. -/
structure JwtPayload where
  base : String
  jti : String
deriving DecidableEq, Repr

/-- A signed assertion: `jwt.sign(payload, privateKey, claims)` modelled as
the payload-key pair (the signature is a function of both). -/
structure SignedJwt where
  payload : JwtPayload
  key : String
deriving DecidableEq, Repr

def jwtSign (p : JwtPayload) (privateKey : String) : SignedJwt :=
  { payload := p, key := privateKey }

/-- The assertion the `ready` handler of attempt `i` builds (lines 136-142):
`payload.jti = uuid.v4()` — a fresh draw per attempt — then
`jwt.sign(payload, privateKey, claims)`. -/
def assertionOfAttempt (ctx : ExchangeCtx) (p : JwtPayload) (privateKey : String)
    (i : Nat) : SignedJwt :=
  jwtSign { p with jti := ctx.uuid i } privateKey

/-! ### Concrete fixtures used by witnesses and counterexamples -/

/-- Exchange world of the §8 scenario: three HTTP-200 answers whose JSON
body (`{"foo":"bar"}`) lacks `access_token`, then a valid
`{"access_token":"tok1","expires_in":3600}`.  Clock frozen at 1000ms. -/
def ctx7 : ExchangeCtx :=
  { uuid := fun n => toString n
    verify := fun _ => none
    response := fun n =>
      if n < 3 then .json { access_token := none, expires_in := 0 }
      else .json { access_token := some "tok1", expires_in := 3600 }
    clock := fun _ => 1000 }

/-- Exchange world where every attempt fails in transport with cause
string "boom". -/
def ctxFail : ExchangeCtx :=
  { uuid := fun n => toString n
    verify := fun _ => none
    response := fun _ => .err "boom"
    clock := fun _ => 0 }

/-- Exchange world where local `jwt.verify` throws on every attempt. -/
def ctxSign : ExchangeCtx :=
  { uuid := fun n => toString n
    verify := fun _ => some "invalid signature"
    response := fun _ => .json { access_token := some "tok1", expires_in := 3600 }
    clock := fun _ => 0 }

/-- Exchange world with an injective uuid stream (draws all distinct). -/
def ctxInj : ExchangeCtx :=
  { uuid := fun n => String.mk (List.replicate n 'a')
    verify := fun _ => none
    response := fun _ => .err ""
    clock := fun _ => 0 }

/-- A token state after a successful exchange: token "tok1" issued at 0,
expiring at 3600000 (expires_in = 3600 s), no refresh in flight. -/
def stA : TokenState :=
  { accessToken := some "tok1", issuedAt := some 0,
    expiresAt := some 3600000, isRefreshing := false }

/-- Same token but with a refresh currently in flight (guard raised). -/
def stBusy : TokenState :=
  { accessToken := some "tok1", issuedAt := some 0,
    expiresAt := some 3600000, isRefreshing := true }

def authA : Auth := { clientId := "cid", clientSecret := "csecret" }

def pA : JwtPayload := { base := "box-claims", jti := "" }

/-! ### Shared lemmas about the retry loop -/

/-- A successful `setLoop` run pins down the succeeding attempt: its local
verification passed, its response parsed to the returned token and
`expires_in`, and the timestamp is that attempt's `Date.now()` reading. -/
theorem setLoop_success_spec (ctx : ExchangeCtx) :
    ∀ fuel i reqs j tok expIn t r,
      setLoop ctx fuel i reqs = (.success j tok expIn t, r) →
      ctx.verify j = none ∧
        processResponse (ctx.response j) = some (tok, expIn) ∧ t = ctx.clock j := by
  intro fuel
  induction fuel with
  | zero =>
    intro i reqs j tok expIn t r h
    simp [setLoop] at h
  | succ n ih =>
    intro i reqs j tok expIn t r h
    cases hv : ctx.verify i with
    | some msg =>
      simp only [setLoop, hv, Prod.mk.injEq] at h
      exact absurd h.1 (by simp)
    | none =>
      cases hp : processResponse (ctx.response i) with
      | none =>
        simp only [setLoop, hv, hp] at h
        exact ih (i + 1) (reqs + 1) j tok expIn t r h
      | some pr =>
        obtain ⟨ptok, pexp⟩ := pr
        simp only [setLoop, hv, hp, Prod.mk.injEq, SetResult.success.injEq] at h
        obtain ⟨⟨hj, htok, hexp, ht⟩, -⟩ := h
        subst hj; subst htok; subst hexp; subst ht
        exact ⟨hv, hp, rfl⟩

/-- When every attempt in the window fails retryably, the loop exhausts the
budget, having posted one request per attempt. -/
theorem setLoop_allFail (ctx : ExchangeCtx) :
    ∀ fuel i reqs,
      (∀ k, k < fuel →
        ctx.verify (i + k) = none ∧ processResponse (ctx.response (i + k)) = none) →
      setLoop ctx fuel i reqs = (.exhausted, reqs + fuel) := by
  intro fuel
  induction fuel with
  | zero => intro i reqs _; simp [setLoop]
  | succ n ih =>
    intro i reqs h
    have h0 := h 0 (Nat.succ_pos n)
    simp only [Nat.add_zero] at h0
    simp only [setLoop, h0.1, h0.2]
    have hrest : ∀ k, k < n →
        ctx.verify (i + 1 + k) = none ∧
          processResponse (ctx.response (i + 1 + k)) = none := by
      intro k hk
      have := h (k + 1) (Nat.succ_lt_succ hk)
      have harith : i + (k + 1) = i + 1 + k := by omega
      rw [harith] at this
      exact this
    rw [ih (i + 1) (reqs + 1) hrest]
    congr 1
    omega

/-- A resolved `set()` call fully determines the new state and the resolved
object, and exhibits the succeeding attempt in the run. -/
theorem applySet_resolved (st st' : TokenState) (ctx : ExchangeCtx) (R : Nat)
    (tokObj : TokenObj)
    (h : applySet st ctx R = (st', .resolved tokObj)) :
    st' = { accessToken := some tokObj.access_token,
            issuedAt := some tokObj.issued_at,
            expiresAt := some tokObj.expires_at,
            isRefreshing := st.isRefreshing } ∧
      tokObj.expires_at = tokObj.issued_at + tokObj.expires_in * 1000 ∧
      ∃ i, (runSet ctx R).1 =
        .success i tokObj.access_token tokObj.expires_in tokObj.issued_at := by
  unfold applySet at h
  cases hr : (runSet ctx R).1 with
  | success i tok expIn now =>
    rw [hr] at h
    simp only [Prod.mk.injEq, PromiseOutcome.resolved.injEq] at h
    obtain ⟨hst, hobj⟩ := h
    subst hobj
    subst hst
    exact ⟨rfl, rfl, i, rfl⟩
  | signErr i msg =>
    rw [hr] at h
    simp at h
  | exhausted =>
    rw [hr] at h
    simp [exhaustedError] at h

/-! ### Claim theorems -/

/-- C1 (counterexample): the claim says that after `revoke()` succeeds,
`get()` fails with `RevokedError` and the scheduler makes no further
exchange call.  On the code this is false at a concrete input: revoking the
valid token `stA` with a successful transport leaves the state exactly
`stA`, the following `get()` still resolves with `"tok1"` (it is not a
rejection of any kind), and the scheduler's next near-expiry
`refreshIfExpiring` still performs an exchange cycle. -/
theorem revoke_rejected_claim_cex :
    revoke authA stA (.resolved "") = (stA, .resolved "") ∧
      Token.get stA = .resolved (some "tok1") ∧
      (Token.get stA).isRejected = false ∧
      (refreshIfExpiring stA 3595001 5 ctx7 4).2 = 1 :=
  ⟨rfl, rfl, rfl, by decide⟩

/-- C1 (amended): `revoke()` settles with the transport outcome but never
touches local token state — there is no revoked flag, `get()` afterwards
behaves exactly as before, and `refreshIfExpiring` (hence the 60s scheduler)
behaves exactly as before, still attempting refreshes. -/
theorem revoke_leaves_state_unchanged (auth : Auth) (st : TokenState)
    (tr : PromiseOutcome String) (now thr : Nat) (ctx : ExchangeCtx) (R : Nat) :
    (revoke auth st tr).1 = st ∧
      Token.get (revoke auth st tr).1 = Token.get st ∧
      refreshIfExpiring (revoke auth st tr).1 now thr ctx R =
        refreshIfExpiring st now thr ctx R := by
  cases tr <;> exact ⟨rfl, rfl, rfl⟩

/-- C2 (counterexample): the claim says `get()` fails with
`NotAuthenticatedError` when `set()` has never succeeded.  On the code
`get()` never rejects: at the freshly created state it resolves with
`undefined` (`none`). -/
theorem get_never_rejects_cex :
    Token.get initialState = .resolved none ∧
      (Token.get initialState).isRejected = false :=
  ⟨rfl, rfl⟩

/-- C2 (amended): `get()` never rejects; before any successful `set()` it
resolves with `undefined` rather than failing, and after a successful
`set()` it resolves with the current access token. -/
theorem get_resolves_with_current_token (st st' : TokenState) (ctx : ExchangeCtx)
    (R : Nat) (tokObj : TokenObj)
    (h : applySet st ctx R = (st', .resolved tokObj)) :
    Token.get initialState = .resolved none ∧
      (Token.get initialState).isRejected = false ∧
      Token.get st' = .resolved (some tokObj.access_token) ∧
      (Token.get st').isRejected = false := by
  obtain ⟨hst, -, -⟩ := applySet_resolved st st' ctx R tokObj h
  subst hst
  exact ⟨rfl, rfl, rfl, rfl⟩

theorem get_resolves_with_current_token_witness :
    applySet initialState ctx7 4 =
      ({ accessToken := some "tok1", issuedAt := some 1000,
         expiresAt := some 3601000, isRefreshing := false },
       .resolved { access_token := "tok1", expires_in := 3600,
                   issued_at := 1000, expires_at := 3601000 }) ∧
      (Token.get initialState = .resolved none ∧
        (Token.get initialState).isRejected = false ∧
        Token.get { accessToken := some "tok1", issuedAt := some 1000,
                    expiresAt := some 3601000, isRefreshing := false } =
          .resolved (some "tok1") ∧
        (Token.get { accessToken := some "tok1", issuedAt := some 1000,
                     expiresAt := some 3601000, isRefreshing := false }).isRejected
          = false) :=
  ⟨by decide,
   get_resolves_with_current_token initialState
     { accessToken := some "tok1", issuedAt := some 1000,
       expiresAt := some 3601000, isRefreshing := false } ctx7 4
     { access_token := "tok1", expires_in := 3600,
       issued_at := 1000, expires_at := 3601000 } (by decide)⟩

/-- C3 (counterexample): the claim says exhaustion rejects with a
`TokenAcquisitionError` carrying the last known failure cause.  On the code
the rejection is the constant `new Error('Unable to get token after 10
tries')`: with `callRetryMax = 3` and every attempt failing in transport
with cause `"boom"`, the rejection's message still says "10 tries" and
carries no cause at all — in particular not `"boom"`. -/
theorem set_exhaustion_error_cex :
    (applySet stA ctxFail 3).2 = .rejected exhaustedError ∧
      exhaustedError.message = "Unable to get token after 10 tries" ∧
      exhaustedError.cause = none ∧
      (applySet stA ctxFail 3).2.causeOf ≠ some "boom" :=
  ⟨rfl, rfl, rfl, by decide⟩

/-- C3 (amended): when all `callRetryMax` attempts fail retryably, `set()`
rejects with the fixed, cause-free `exhaustedError`, and the token state —
`accessToken`, `issuedAt`, `expiresAt` — is exactly what it was before the
call, so a previously valid token returned by `get()` is unchanged. -/
theorem set_exhaustion_preserves_state (st : TokenState) (ctx : ExchangeCtx)
    (R : Nat)
    (hfail : ∀ k, k < R →
      ctx.verify k = none ∧ processResponse (ctx.response k) = none) :
    applySet st ctx R = (st, .rejected exhaustedError) ∧
      Token.get (applySet st ctx R).1 = Token.get st := by
  have h := setLoop_allFail ctx R 0 0 (by
    intro k hk
    simpa using hfail k hk)
  have hrun : (runSet ctx R).1 = .exhausted := by
    rw [runSet, h]
  constructor
  · rw [applySet, hrun]
  · rw [applySet, hrun]

theorem set_exhaustion_preserves_state_witness :
    (∀ k, k < 3 →
      ctxFail.verify k = none ∧ processResponse (ctxFail.response k) = none) ∧
      (applySet stA ctxFail 3 = (stA, .rejected exhaustedError) ∧
        Token.get (applySet stA ctxFail 3).1 = Token.get stA) :=
  ⟨fun _ _ => ⟨rfl, rfl⟩,
   set_exhaustion_preserves_state stA ctxFail 3 (fun _ _ => ⟨rfl, rfl⟩)⟩

/-- C4: single-flight refresh.  While the `isRefreshing` guard is raised, a
`refreshIfExpiring` call performs zero exchange cycles and changes nothing;
with the guard down and the token near expiry it performs exactly one
`set()` cycle and, whatever that cycle's outcome, the guard is down again
afterwards (the `finally` handler). -/
theorem refresh_single_flight (st : TokenState) (now thr : Nat)
    (ctx : ExchangeCtx) (R : Nat) :
    (st.isRefreshing = true → refreshIfExpiring st now thr ctx R = (st, 0)) ∧
      (st.isRefreshing = false → doRefreshCheck st now thr = true →
        (refreshIfExpiring st now thr ctx R).2 = 1 ∧
          (refreshIfExpiring st now thr ctx R).1.isRefreshing = false) := by
  constructor
  · intro h
    simp [refreshIfExpiring, h]
  · intro h1 h2
    simp [refreshIfExpiring, h1, h2]

theorem refresh_single_flight_witness :
    refreshIfExpiring stBusy 3595001 5 ctx7 4 = (stBusy, 0) ∧
      ((refreshIfExpiring stA 3595001 5 ctx7 4).2 = 1 ∧
        (refreshIfExpiring stA 3595001 5 ctx7 4).1.isRefreshing = false) ∧
      ((refreshIfExpiring stA 3595001 5 ctxFail 3).2 = 1 ∧
        (refreshIfExpiring stA 3595001 5 ctxFail 3).1.isRefreshing = false) :=
  ⟨(refresh_single_flight stBusy 3595001 5 ctx7 4).1 rfl,
   (refresh_single_flight stA 3595001 5 ctx7 4).2 rfl (by decide),
   (refresh_single_flight stA 3595001 5 ctxFail 3).2 rfl (by decide)⟩

/-- C5: threshold behaviour of `refreshIfExpiring`.  With expiry `e` known:
if `now < e - thr*60000` the call is a no-op returning the state untouched
with zero exchange cycles; if the remaining lifetime `e - now` is strictly
below `thr*60000` (and no refresh is in flight) it performs one exchange
cycle. -/
theorem refresh_threshold_boundary (st : TokenState) (e now thr : Nat)
    (ctx : ExchangeCtx) (R : Nat) (he : st.expiresAt = some e) :
    ((now : Int) < (e : Int) - (thr : Int) * 60 * 1000 →
      refreshIfExpiring st now thr ctx R = (st, 0)) ∧
      (st.isRefreshing = false →
        (e : Int) - (now : Int) < (thr : Int) * 60 * 1000 →
        (refreshIfExpiring st now thr ctx R).2 = 1) := by
  constructor
  · intro h
    have hd : doRefreshCheck st now thr = false := by
      simp only [doRefreshCheck, he, decide_eq_false_iff_not, not_lt]
      omega
    simp [refreshIfExpiring, hd]
  · intro h1 h2
    have hd : doRefreshCheck st now thr = true := by
      simp only [doRefreshCheck, he, decide_eq_true_eq]
      omega
    simp [refreshIfExpiring, h1, hd]

/-- Witness for C5, the §8 scenario: `minutesUntilTokenRefresh = 5`,
`expires_in = 3600` (so `expiresAt = issuedAt + 3600000`); at 600000ms
remaining no exchange happens, at 4999ms remaining one exchange cycle
happens. -/
theorem refresh_threshold_boundary_witness :
    refreshIfExpiring stA 3000000 5 ctx7 4 = (stA, 0) ∧
      (refreshIfExpiring stA 3595001 5 ctx7 4).2 = 1 :=
  ⟨(refresh_threshold_boundary stA 3600000 3000000 5 ctx7 4 rfl).1 (by decide),
   (refresh_threshold_boundary stA 3600000 3595001 5 ctx7 4 rfl).2 rfl (by decide)⟩

/-- C6: a resolved `set()` stamps `issued_at` with `Date.now()` read while
processing the succeeding response and `expires_at = issued_at +
expires_in*1000`; hence `issuedAt ≤ expiresAt` and the difference is exactly
`expires_in*1000`, and the state fields hold these stamps. -/
theorem set_success_timestamps (st st' : TokenState) (ctx : ExchangeCtx)
    (R : Nat) (tokObj : TokenObj)
    (h : applySet st ctx R = (st', .resolved tokObj)) :
    tokObj.issued_at ≤ tokObj.expires_at ∧
      tokObj.expires_at - tokObj.issued_at = tokObj.expires_in * 1000 ∧
      st'.issuedAt = some tokObj.issued_at ∧
      st'.expiresAt = some tokObj.expires_at ∧
      st'.accessToken = some tokObj.access_token ∧
      ∃ i, tokObj.issued_at = ctx.clock i ∧
        processResponse (ctx.response i) =
          some (tokObj.access_token, tokObj.expires_in) := by
  obtain ⟨hst, hexp, i, hrun⟩ := applySet_resolved st st' ctx R tokObj h
  obtain ⟨-, hproc, hclock⟩ :=
    setLoop_success_spec ctx R 0 0 i tokObj.access_token tokObj.expires_in
      tokObj.issued_at (runSet ctx R).2 (by
        rw [← hrun]
        rfl)
  subst hst
  refine ⟨?_, ?_, rfl, rfl, rfl, i, hclock, hproc⟩
  · rw [hexp]; exact Nat.le_add_right _ _
  · rw [hexp]; exact Nat.add_sub_cancel_left _ _

theorem set_success_timestamps_witness :
    applySet initialState ctx7 4 =
      ({ accessToken := some "tok1", issuedAt := some 1000,
         expiresAt := some 3601000, isRefreshing := false },
       .resolved { access_token := "tok1", expires_in := 3600,
                   issued_at := 1000, expires_at := 3601000 }) ∧
      ((1000 : Nat) ≤ 3601000 ∧
        (3601000 : Nat) - 1000 = 3600 * 1000 ∧
        (some 1000 : Option Nat) = some 1000 ∧
        (some 3601000 : Option Nat) = some 3601000 ∧
        (some "tok1" : Option String) = some "tok1" ∧
        ∃ i, (1000 : Nat) = ctx7.clock i ∧
          processResponse (ctx7.response i) = some ("tok1", 3600)) :=
  ⟨by decide,
   set_success_timestamps initialState
     { accessToken := some "tok1", issuedAt := some 1000,
       expiresAt := some 3601000, isRefreshing := false } ctx7 4
     { access_token := "tok1", expires_in := 3600,
       issued_at := 1000, expires_at := 3601000 } (by decide)⟩

/-- C7: the §8 scenario.  Three HTTP-200 answers whose parsed body lacks
`access_token` are each treated as retryable failures; with
`callRetryMax ≥ 4` the run succeeds on the 4th attempt (backoff index 3)
after exactly 4 posted requests, storing `accessToken = "tok1"`,
`issuedAt = 1000` and `expiresAt = 3601000`, so
`expiresAt - issuedAt = 3600000`. -/
theorem set_retries_on_missing_token (R : Nat) (hR : 4 ≤ R) :
    runSet ctx7 R = (.success 3 "tok1" 3600 1000, 4) ∧
      applySet initialState ctx7 R =
        ({ accessToken := some "tok1", issuedAt := some 1000,
           expiresAt := some 3601000, isRefreshing := false },
         .resolved { access_token := "tok1", expires_in := 3600,
                     issued_at := 1000, expires_at := 3601000 }) := by
  obtain ⟨k, hk⟩ := Nat.le.dest hR
  subst hk
  rw [Nat.add_comm 4 k]
  exact ⟨rfl, rfl⟩

theorem set_retries_on_missing_token_witness :
    4 ≤ 4 ∧
      (runSet ctx7 4 = (.success 3 "tok1" 3600 1000, 4) ∧
        applySet initialState ctx7 4 =
          ({ accessToken := some "tok1", issuedAt := some 1000,
             expiresAt := some 3601000, isRefreshing := false },
           .resolved { access_token := "tok1", expires_in := 3600,
                       issued_at := 1000, expires_at := 3601000 })) :=
  ⟨Nat.le.refl, set_retries_on_missing_token 4 Nat.le.refl⟩

/-- C8: a `jwt.verify` throw on an attempt rejects the whole `set()` at
once: that attempt posts no request and there is no further retry (the loop
result is the exception, with the request count frozen); by contrast a
transport/parse/missing-token failure on an attempt posts its one request
and continues with the next backoff step.  At the level of `applySet`, a
first-attempt verification throw rejects with exactly that error and leaves
the state untouched. -/
theorem sign_failure_aborts (st : TokenState) (ctx : ExchangeCtx)
    (R fuel i reqs : Nat) (msg : String) :
    (ctx.verify i = some msg →
      setLoop ctx (fuel + 1) i reqs = (.signErr i msg, reqs)) ∧
      (ctx.verify i = none → processResponse (ctx.response i) = none →
        setLoop ctx (fuel + 1) i reqs = setLoop ctx fuel (i + 1) (reqs + 1)) ∧
      (ctx.verify 0 = some msg →
        applySet st ctx (R + 1) = (st, .rejected { message := msg, cause := none })) := by
  refine ⟨?_, ?_, ?_⟩
  · intro h
    simp [setLoop, h]
  · intro h1 h2
    simp [setLoop, h1, h2]
  · intro h
    have hrun : (runSet ctx (R + 1)).1 = .signErr 0 msg := by
      rw [runSet]
      simp [setLoop, h]
    rw [applySet, hrun]

theorem sign_failure_aborts_witness :
    setLoop ctxSign 5 0 0 = (.signErr 0 "invalid signature", 0) ∧
      applySet stA ctxSign 3 =
        (stA, .rejected { message := "invalid signature", cause := none }) :=
  ⟨(sign_failure_aborts stA ctxSign 2 4 0 0 "invalid signature").1 rfl,
   (sign_failure_aborts stA ctxSign 2 4 0 0 "invalid signature").2.2 rfl⟩

/-- C9: each attempt's `ready` handler overwrites `payload.jti` with a fresh
`uuid.v4()` draw before signing, so as long as the draws are distinct
(injective uuid stream), two distinct attempts carry distinct `jti` values
and hence distinct signed assertions — no assertion is reused across
retries. -/
theorem fresh_jti_per_attempt (ctx : ExchangeCtx) (p : JwtPayload)
    (privateKey : String) (i j : Nat)
    (hinj : Function.Injective ctx.uuid) (hij : i ≠ j) :
    (assertionOfAttempt ctx p privateKey i).payload.jti ≠
        (assertionOfAttempt ctx p privateKey j).payload.jti ∧
      assertionOfAttempt ctx p privateKey i ≠ assertionOfAttempt ctx p privateKey j := by
  have huv : ctx.uuid i ≠ ctx.uuid j := fun he => hij (hinj he)
  constructor
  · simpa [assertionOfAttempt, jwtSign] using huv
  · intro hEq
    exact huv (congrArg (fun s => s.payload.jti) hEq)

theorem ctxInj_uuid_injective : Function.Injective ctxInj.uuid := by
  intro a b h
  have hlen := congrArg String.length h
  simpa [ctxInj, String.length] using hlen

theorem fresh_jti_per_attempt_witness :
    Function.Injective ctxInj.uuid ∧ (0 : Nat) ≠ 1 ∧
      ((assertionOfAttempt ctxInj pA "priv" 0).payload.jti ≠
          (assertionOfAttempt ctxInj pA "priv" 1).payload.jti ∧
        assertionOfAttempt ctxInj pA "priv" 0 ≠ assertionOfAttempt ctxInj pA "priv" 1) :=
  ⟨ctxInj_uuid_injective, by decide,
   fresh_jti_per_attempt ctxInj pA "priv" 0 1 ctxInj_uuid_injective (by decide)⟩

/-- C10: `revoke()` is a pure transport action with no local frame effect.
Whether the revocation POST succeeds or errors, `accessToken`, `issuedAt`
and `expiresAt` are unchanged (there is no revoked flag in the state at
all), `get()` still resolves with the old access token, and the scheduler's
`refreshIfExpiring` behaves exactly as it did before the revoke. -/
theorem revoke_frame_effect (auth : Auth) (st : TokenState) (body : String)
    (e : JsError) :
    revoke auth st (.resolved body) = (st, .resolved body) ∧
      revoke auth st (.rejected e) = (st, .rejected e) ∧
      (revoke auth st (.resolved body)).1.accessToken = st.accessToken ∧
      (revoke auth st (.resolved body)).1.issuedAt = st.issuedAt ∧
      (revoke auth st (.resolved body)).1.expiresAt = st.expiresAt ∧
      Token.get (revoke auth st (.rejected e)).1 = Token.get st ∧
      ∀ now thr ctx R,
        refreshIfExpiring (revoke auth st (.resolved body)).1 now thr ctx R =
          refreshIfExpiring st now thr ctx R :=
  ⟨rfl, rfl, rfl, rfl, rfl, rfl, fun _ _ _ _ => rfl⟩

end BoxAppauth
